import Mathlib

/-!
Verification development for the `pagerduty-rs` client library
(PagerDuty Events V2 API client).

The embedding below translates the repository's source files:
- `src/types.rs` — caller-facing event model (used by the non-blocking module);
- `src/private_types.rs` — wire envelopes (`Sendable*`) with `routing_key`;
- `src/eventsv2.rs` — blocking client: its own copy of the data model, the
  dispatcher `EventsV2::event`, enrichment, the responder classification in
  `do_post`, and a timestamp formatter using the `"%FT%T.%NZ"` pattern;
- `src/eventsv2async.rs` — non-blocking client: same dispatcher/enrichment/
  classifier over the `types.rs`/`private_types.rs` model, whose timestamp
  formatter is `time`'s RFC 3339 well-known format.

The generic `custom_details: T` payload is represented by its JSON
serialization (a `Json` value), which covers every serializable `T`.
JSON output of `serde_json::to_string` on the derived `Serialize` impls is
modelled structurally: objects keep declaration order of fields, and fields
annotated `skip_serializing_if = "Option::is_none"` are omitted when `None`.
-/

namespace PagerDuty

/-- JSON documents, as produced by `serde_json`: objects keep field order. -/
inductive Json where
  | null
  | bool (b : Bool)
  | num (n : Int)
  | str (s : String)
  | arr (elems : List Json)
  | obj (fields : List (String × Json))

/-- Hex digit character (lowercase), as used by `serde_json` escapes. -/
def hexDigit (n : Nat) : Char :=
  if n < 10 then Char.ofNat (48 + n) else Char.ofNat (87 + n)

/-- `serde_json` escaping of a single character inside a JSON string. -/
def escapeJsonChar (c : Char) : String :=
  if c = '\"' then "\\\""
  else if c = '\\' then "\\\\"
  else if c = '\x08' then "\\b"
  else if c = '\x09' then "\\t"
  else if c = '\x0a' then "\\n"
  else if c = '\x0c' then "\\f"
  else if c = '\x0d' then "\\r"
  else if c.toNat < 32 then
    "\\u00" ++ String.mk [hexDigit (c.toNat / 16), hexDigit (c.toNat % 16)]
  else String.mk [c]

/-- `serde_json` escaping of a JSON string body. -/
def escapeJsonString (s : String) : String :=
  String.join (s.toList.map escapeJsonChar)

mutual

/-- Compact rendering of a JSON document, as `serde_json::to_string` emits it. -/
def Json.render : Json → String
  | .null => "null"
  | .bool b => if b then "true" else "false"
  | .num n => toString n
  | .str s => "\"" ++ escapeJsonString s ++ "\""
  | .arr es => "[" ++ Json.renderList es ++ "]"
  | .obj fs => "\x7b" ++ Json.renderFields fs ++ "\x7d"

/-- Comma-separated rendering of array elements. -/
def Json.renderList : List Json → String
  | [] => ""
  | [x] => x.render
  | x :: y :: xs => x.render ++ "," ++ Json.renderList (y :: xs)

/-- Comma-separated rendering of object fields. -/
def Json.renderFields : List (String × Json) → String
  | [] => ""
  | [(k, v)] => "\"" ++ escapeJsonString k ++ "\":" ++ v.render
  | (k, v) :: f :: fs =>
    "\"" ++ escapeJsonString k ++ "\":" ++ v.render ++ "," ++ Json.renderFields (f :: fs)

end

/-- Whether a JSON value is `null`. -/
def Json.isNull : Json → Bool
  | .null => true
  | _ => false

mutual

/-- No object field anywhere in the document has the value `null`. -/
def Json.noNullValuedKey : Json → Bool
  | .null => true
  | .bool _ => true
  | .num _ => true
  | .str _ => true
  | .arr es => Json.noNullValuedKeyList es
  | .obj fs => Json.noNullValuedKeyFields fs

/-- `noNullValuedKey` over array elements. -/
def Json.noNullValuedKeyList : List Json → Bool
  | [] => true
  | x :: xs => x.noNullValuedKey && Json.noNullValuedKeyList xs

/-- `noNullValuedKey` over object fields: the field value must not be `null`,
and must itself contain no null-valued key. -/
def Json.noNullValuedKeyFields : List (String × Json) → Bool
  | [] => true
  | (_, v) :: fs => !v.isNull && v.noNullValuedKey && Json.noNullValuedKeyFields fs

end

/-- The top-level keys of a JSON object (empty for non-objects). -/
def Json.topKeys : Json → List String
  | .obj fs => fs.map Prod.fst
  | _ => []

/-- Look up a top-level key of a JSON object. -/
def Json.lookupKey (j : Json) (k : String) : Option Json :=
  match j with
  | .obj fs => List.lookup k fs
  | _ => none

/-! ## Timestamps

`time::OffsetDateTime` values reaching the serializers are always UTC
instants (the library stores and formats them without an offset, and both
formatters emit a literal trailing `Z`).  An instant is represented by its
Unix timestamp in nanoseconds, the form the repository's tests construct via
`OffsetDateTime::from_unix_timestamp_nanos`. -/

/-- A UTC instant: Unix time in nanoseconds (`time::OffsetDateTime`). -/
structure OffsetDateTime where
  unixNanos : Int
deriving DecidableEq

namespace OffsetDateTime

/-- `OffsetDateTime::from_unix_timestamp_nanos`. -/
def from_unix_timestamp_nanos (n : Int) : OffsetDateTime := ⟨n⟩

/-- Whole seconds since the Unix epoch (floor). -/
def unixSeconds (t : OffsetDateTime) : Int := t.unixNanos.ediv 1000000000

/-- Nanoseconds within the current second, in `[0, 10^9)`. -/
def subsecNanos (t : OffsetDateTime) : Nat := (t.unixNanos.emod 1000000000).toNat

/-- Days since the Unix epoch (floor). -/
def epochDays (t : OffsetDateTime) : Int := t.unixSeconds.ediv 86400

/-- Seconds within the current day, in `[0, 86400)`. -/
def secondOfDay (t : OffsetDateTime) : Nat := (t.unixSeconds.emod 86400).toNat

/-- Proleptic-Gregorian civil date `(year, month, day)` from days since the
Unix epoch (the floored-division form of the standard days-to-civil
algorithm used by calendar libraries such as the `time` crate). -/
def civilFromDays (z : Int) : Int × Nat × Nat :=
  let z' : Int := z + 719468
  let era : Int := z'.ediv 146097
  let doe : Nat := (z'.emod 146097).toNat
  let yoe : Nat := (doe - doe / 1460 + doe / 36524 - doe / 146096) / 365
  let doy : Nat := doe - (365 * yoe + yoe / 4 - yoe / 100)
  let mp : Nat := (5 * doy + 2) / 153
  let d : Nat := doy - (153 * mp + 2) / 5 + 1
  let m : Nat := if mp < 10 then mp + 3 else mp - 9
  (era * 400 + (yoe : Int) + (if m ≤ 2 then 1 else 0), m, d)

/-- Calendar year of the instant. -/
def year (t : OffsetDateTime) : Int := (civilFromDays t.epochDays).1

/-- Calendar month of the instant, `1..12`. -/
def month (t : OffsetDateTime) : Nat := (civilFromDays t.epochDays).2.1

/-- Day of month of the instant, `1..31`. -/
def day (t : OffsetDateTime) : Nat := (civilFromDays t.epochDays).2.2

/-- Hour of day, `0..23`. -/
def hour (t : OffsetDateTime) : Nat := t.secondOfDay / 3600

/-- Minute of hour, `0..59`. -/
def minute (t : OffsetDateTime) : Nat := (t.secondOfDay / 60) % 60

/-- Second of minute, `0..59`. -/
def second (t : OffsetDateTime) : Nat := t.secondOfDay % 60

end OffsetDateTime

/-- Decimal digit character for `n % 10`. -/
def digitChar (n : Nat) : Char := Char.ofNat (48 + n % 10)

/-- A natural number zero-padded to two decimal digits (values `< 100`). -/
def pad2 (n : Nat) : String := String.mk [digitChar (n / 10), digitChar n]

/-- A natural number zero-padded to four decimal digits (values `< 10000`);
the calendar years of all timestamps this service handles are four-digit. -/
def pad4 (n : Nat) : String :=
  String.mk [digitChar (n / 1000), digitChar (n / 100), digitChar (n / 10), digitChar n]

/-- A natural number zero-padded to nine decimal digits (values `< 10^9`),
the rendering of a nanosecond count in both timestamp formatters. -/
def pad9 (n : Nat) : String :=
  String.mk [digitChar (n / 100000000), digitChar (n / 10000000),
    digitChar (n / 1000000), digitChar (n / 100000), digitChar (n / 10000),
    digitChar (n / 1000), digitChar (n / 100), digitChar (n / 10), digitChar n]

namespace OffsetDateTime

/-- The `%F` (year-month-day) part of a formatted instant. -/
def dateStr (t : OffsetDateTime) : String :=
  pad4 t.year.toNat ++ "-" ++ pad2 t.month ++ "-" ++ pad2 t.day

/-- The `%T` (hour:minute:second) part of a formatted instant. -/
def timeStr (t : OffsetDateTime) : String :=
  pad2 t.hour ++ ":" ++ pad2 t.minute ++ ":" ++ pad2 t.second

end OffsetDateTime

/-- `datetime_to_iso8601` of the blocking module (`src/eventsv2.rs`):
`d.format("%FT%T.%NZ")` — `%N` always prints nine zero-padded nanosecond
digits, so the fractional suffix is always present. -/
def datetime_to_iso8601_sync (t : OffsetDateTime) : String :=
  t.dateStr ++ "T" ++ t.timeStr ++ "." ++ pad9 t.subsecNanos ++ "Z"

/-- `datetime_to_iso8601` of the non-blocking model (`src/types.rs`):
`d.format(&Rfc3339)` — the `time` crate's RFC 3339 well-known format, which
omits the fractional part entirely when the nanosecond count is zero and
otherwise prints it zero-padded, as pinned by the repository's own tests
(`"2021-05-30T00:00:00Z"` and `"2033-05-18T23:30:04.323000000Z"`). -/
def datetime_to_iso8601 (t : OffsetDateTime) : String :=
  t.dateStr ++ "T" ++ t.timeStr ++
    (if t.subsecNanos = 0 then "" else "." ++ pad9 t.subsecNanos) ++ "Z"

/-! ## Event model (`src/types.rs`; `src/eventsv2.rs` holds a textually
identical copy for the blocking build).  Fields are listed in declaration
order, which is the order the derived `Serialize` impls emit them. -/

/-- `Severity`: `#[serde(rename_all = "lowercase")]`. -/
inductive Severity where
  | Info
  | Warning
  | Error
  | Critical
deriving DecidableEq

/-- The lowercase wire token of a `Severity`. -/
def Severity.serialized : Severity → String
  | .Info => "info"
  | .Warning => "warning"
  | .Error => "error"
  | .Critical => "critical"

/-- `Action`: `#[serde(rename_all = "lowercase")]`. -/
inductive Action where
  | Trigger
  | Acknowledge
  | Resolve
deriving DecidableEq

/-- The lowercase wire token of an `Action`. -/
def Action.serialized : Action → String
  | .Trigger => "trigger"
  | .Acknowledge => "acknowledge"
  | .Resolve => "resolve"

/-- `Link { href, text? }`. -/
structure Link where
  href : String
  text : Option String

/-- `Image { src, href?, alt? }`. -/
structure Image where
  src : String
  href : Option String
  alt : Option String

/-- `ChangePayload<T>`; `custom_details` holds the JSON serialization of the
caller's `T` value when present. -/
structure ChangePayload where
  summary : String
  timestamp : OffsetDateTime
  source : Option String
  custom_details : Option Json

/-- `Change<T>`. -/
structure Change where
  payload : ChangePayload
  links : Option (List Link)

/-- `AlertTriggerPayload<T>`; the `class` field is named `cls` here because
`class` is reserved in Lean. -/
structure AlertTriggerPayload where
  severity : Severity
  summary : String
  source : String
  timestamp : Option OffsetDateTime
  component : Option String
  group : Option String
  cls : Option String
  custom_details : Option Json

/-- `AlertTrigger<T>`. -/
structure AlertTrigger where
  payload : AlertTriggerPayload
  dedup_key : Option String
  images : Option (List Image)
  links : Option (List Link)
  client : Option String
  client_url : Option String

/-- `AlertAcknowledge { dedup_key }`. -/
structure AlertAcknowledge where
  dedup_key : String

/-- `AlertResolve { dedup_key }`. -/
structure AlertResolve where
  dedup_key : String

/-- `Event<T>`: the tagged union callers construct. -/
inductive Event where
  | Change (c : Change)
  | AlertTrigger (at_ : AlertTrigger)
  | AlertAcknowledge (aa : AlertAcknowledge)
  | AlertResolve (ar : AlertResolve)

/-! ## Wire envelopes (`src/private_types.rs`; `src/eventsv2.rs` holds an
identical private copy). -/

/-- `SendableChange<T>`. -/
structure SendableChange where
  routing_key : String
  payload : ChangePayload
  links : Option (List Link)

/-- `SendableChange::from_change` (`src/private_types.rs`): inject the
integration key, copying payload and links verbatim. -/
def SendableChange.from_change (change : Change) (integration_key : String) :
    SendableChange :=
  { routing_key := integration_key
    links := change.links
    payload := change.payload }

/-- `SendableAlertTrigger<T>`.  Field order (hence wire key order):
`routing_key, payload, dedup_key, images, links, event_action, client,
client_url`. -/
structure SendableAlertTrigger where
  routing_key : String
  payload : AlertTriggerPayload
  dedup_key : Option String
  images : Option (List Image)
  links : Option (List Link)
  event_action : Action
  client : Option String
  client_url : Option String

/-- `SendableAlertTrigger::from_alert_trigger`: inject the integration key,
fix `event_action := Trigger`, copy everything else verbatim. -/
def SendableAlertTrigger.from_alert_trigger (alert_trigger : AlertTrigger)
    (integration_key : String) : SendableAlertTrigger :=
  { routing_key := integration_key
    event_action := Action.Trigger
    dedup_key := alert_trigger.dedup_key
    images := alert_trigger.images
    links := alert_trigger.links
    payload := alert_trigger.payload
    client := alert_trigger.client
    client_url := alert_trigger.client_url }

/-- `SendableAlertFollowup { routing_key, dedup_key, event_action }`. -/
structure SendableAlertFollowup where
  routing_key : String
  dedup_key : String
  event_action : Action

/-- `SendableAlertFollowup::new`. -/
def SendableAlertFollowup.new (dedup_key : String) (action : Action)
    (integration_key : String) : SendableAlertFollowup :=
  { routing_key := integration_key
    event_action := action
    dedup_key := dedup_key }

/-! ## Derived `Serialize` impls as JSON-document builders.

A field annotated `#[serde(skip_serializing_if = "Option::is_none")]` is
emitted only when it is `Some`; `optField` models exactly that.  The two
builds differ only in which `datetime_to_iso8601` they call, so the builders
take the timestamp formatter as a parameter and each build instantiates
it below. -/

/-- The fields contributed by an optional (`skip_serializing_if`) field. -/
def optField (name : String) : Option Json → List (String × Json)
  | some j => [(name, j)]
  | none => []

/-- Derived `Serialize` for `Link`. -/
def Link.toJson (l : Link) : Json :=
  .obj ([("href", .str l.href)] ++ optField "text" (l.text.map .str))

/-- Derived `Serialize` for `Image`. -/
def Image.toJson (i : Image) : Json :=
  .obj ([("src", .str i.src)] ++ optField "href" (i.href.map .str)
    ++ optField "alt" (i.alt.map .str))

/-- Derived `Serialize` for `ChangePayload`, parameterized by the build's
timestamp formatter (`#[serde(serialize_with = "datetime_to_iso8601")]`). -/
def ChangePayload.toJson (fmt : OffsetDateTime → String) (p : ChangePayload) : Json :=
  .obj ([("summary", .str p.summary), ("timestamp", .str (fmt p.timestamp))]
    ++ optField "source" (p.source.map .str)
    ++ optField "custom_details" p.custom_details)

/-- Derived `Serialize` for `AlertTriggerPayload` (optional timestamp via
`optional_datetime_to_iso8601`, skipped when `None`). -/
def AlertTriggerPayload.toJson (fmt : OffsetDateTime → String)
    (p : AlertTriggerPayload) : Json :=
  .obj ([("severity", .str p.severity.serialized), ("summary", .str p.summary),
      ("source", .str p.source)]
    ++ optField "timestamp" (p.timestamp.map fun d => .str (fmt d))
    ++ optField "component" (p.component.map .str)
    ++ optField "group" (p.group.map .str)
    ++ optField "class" (p.cls.map .str)
    ++ optField "custom_details" p.custom_details)

/-- Derived `Serialize` for `SendableChange`. -/
def SendableChange.toJson (fmt : OffsetDateTime → String) (sc : SendableChange) : Json :=
  .obj ([("routing_key", .str sc.routing_key),
      ("payload", sc.payload.toJson fmt)]
    ++ optField "links" ((sc.links.map fun ls => Json.arr (ls.map Link.toJson))))

/-- Derived `Serialize` for `SendableAlertTrigger`. -/
def SendableAlertTrigger.toJson (fmt : OffsetDateTime → String)
    (sat : SendableAlertTrigger) : Json :=
  .obj ([("routing_key", .str sat.routing_key),
      ("payload", sat.payload.toJson fmt)]
    ++ optField "dedup_key" (sat.dedup_key.map .str)
    ++ optField "images" ((sat.images.map fun is => Json.arr (is.map Image.toJson)))
    ++ optField "links" ((sat.links.map fun ls => Json.arr (ls.map Link.toJson)))
    ++ [("event_action", .str sat.event_action.serialized)]
    ++ optField "client" (sat.client.map .str)
    ++ optField "client_url" (sat.client_url.map .str))

/-- Derived `Serialize` for `SendableAlertFollowup` (no optional fields). -/
def SendableAlertFollowup.toJson (saf : SendableAlertFollowup) : Json :=
  .obj [("routing_key", .str saf.routing_key),
    ("dedup_key", .str saf.dedup_key),
    ("event_action", .str saf.event_action.serialized)]

/-! ## Error taxonomy, transport outcomes and response classification
(`src/eventsv2.rs` and `src/eventsv2async.rs`, identical in both). -/

/-- `EventsV2Error`.  `SerdeJsonError` carries the serializer's message;
`SyntheticUreqError` carries the optional detail of the pre-response
transport failure (`Option<ureq::Error>`). -/
inductive EventsV2Error where
  | SerdeJsonError (msg : String)
  | SyntheticUreqError (detail : Option String)
  | HttpError (status : Nat)
  | NotAccepted (status : Nat)
deriving DecidableEq

/-- `EventsV2Result = Result<(), EventsV2Error>`. -/
abbrev EventsV2Result := Except EventsV2Error Unit

/-- The outcome the `ureq` transport hands back for one POST: either a
synthetic (pre-response) failure with its optional underlying error, or a
real HTTP response with its status code. -/
inductive UreqResponse where
  | synthetic (detail : Option String)
  | response (status : Nat)

/-- `ureq::Response::error()`: the status is a client error (`400..=499`)
or a server error (`500..=599`). -/
def ureqResponseIsError (status : Nat) : Bool :=
  (400 ≤ status && status ≤ 499) || (500 ≤ status && status ≤ 599)

/-- The response-classification tail of `EventsV2::do_post` (both builds):
synthetic failures first, then `resp.error()`, then the `!= 202` check. -/
def classifyResponse (resp : UreqResponse) : EventsV2Result :=
  match resp with
  | .synthetic detail => .error (.SyntheticUreqError detail)
  | .response status =>
    if ureqResponseIsError status then .error (.HttpError status)
    else if status ≠ 202 then .error (.NotAccepted status)
    else .ok ()

/-- The visible outcome of one `do_post` call: the returned result and the
body actually sent over the network (`none` when no POST was issued). -/
structure PostOutcome where
  result : EventsV2Result
  sentBody : Option String

/-- `EventsV2::do_post`, given the result of `serde_json::to_string` on the
envelope and the transport (a function from request body to outcome): the
`?` on serialization returns the error before the request is built, so the
transport is never consulted on serialization failure. -/
def do_post (serialized : Except String String)
    (transport : String → UreqResponse) : PostOutcome :=
  match serialized with
  | .error e => { result := .error (.SerdeJsonError e), sentBody := none }
  | .ok jsonstr =>
    { result := classifyResponse (transport jsonstr), sentBody := some jsonstr }

/-! ## The client and the dispatcher. -/

/-- `EventsV2`: the client; immutable configuration only. -/
structure EventsV2 where
  integration_key : String
  user_agent : Option String
deriving DecidableEq

/-- `EventsV2::new` (both builds): wraps the fields in `Ok` and can never
take the error branch. -/
def EventsV2.new (integration_key : String) (user_agent : Option String) :
    Except EventsV2Error EventsV2 :=
  .ok { integration_key := integration_key, user_agent := user_agent }

/-- The change-events endpoint URL (`EventsV2::change`, both builds). -/
def changeUrl : String := "https://events.pagerduty.com/v2/change/enqueue"

/-- The alert-events endpoint URL (`EventsV2::alert_trigger` and
`EventsV2::alert_followup`, both builds). -/
def alertUrl : String := "https://events.pagerduty.com/v2/enqueue"

/-- `EventsV2::event` up to (and excluding) the POST itself: the dispatch
match plus the enrichment done in `change` / `alert_trigger` /
`alert_followup`, producing the target URL and the envelope document that
`do_post` serializes.  Parameterized by the build's timestamp formatter;
the two builds are instantiated below. -/
def EventsV2.eventRequest (fmt : OffsetDateTime → String) (c : EventsV2)
    (event : Event) : String × Json :=
  match event with
  | .Change ch =>
    (changeUrl, (SendableChange.from_change ch c.integration_key).toJson fmt)
  | .AlertTrigger at_ =>
    (alertUrl, (SendableAlertTrigger.from_alert_trigger at_ c.integration_key).toJson fmt)
  | .AlertAcknowledge aa =>
    (alertUrl, (SendableAlertFollowup.new aa.dedup_key Action.Acknowledge
      c.integration_key).toJson)
  | .AlertResolve ar =>
    (alertUrl, (SendableAlertFollowup.new ar.dedup_key Action.Resolve
      c.integration_key).toJson)

/-- The blocking build's request (`src/eventsv2.rs`), with its `%FT%T.%NZ`
timestamp formatter. -/
def EventsV2.eventRequestSync (c : EventsV2) (event : Event) : String × Json :=
  c.eventRequest datetime_to_iso8601_sync event

/-- The non-blocking build's request (`src/eventsv2async.rs` over
`src/types.rs`), with the RFC 3339 timestamp formatter. -/
def EventsV2.eventRequestAsync (c : EventsV2) (event : Event) : String × Json :=
  c.eventRequest datetime_to_iso8601 event

/-- Every timestamp carried by the event has a nonzero nanosecond part —
the region on which the two builds' timestamp formatters coincide. -/
def Event.timestampsHaveSubsec : Event → Prop
  | .Change ch => ch.payload.timestamp.subsecNanos ≠ 0
  | .AlertTrigger at_ => ∀ ts ∈ at_.payload.timestamp, ts.subsecNanos ≠ 0
  | .AlertAcknowledge _ => True
  | .AlertResolve _ => True

/-! ## Theorems -/

/-- C1: for every client and every event (all four variants), the envelope
produced by enrichment carries `routing_key` equal to the client's
configured integration key, in both the blocking and the non-blocking
build; no field of the caller-supplied event can influence it. -/
theorem routing_key_is_integration_key (c : EventsV2) (ev : Event) :
    ((c.eventRequestSync ev).2).lookupKey "routing_key"
        = some (.str c.integration_key)
    ∧ ((c.eventRequestAsync ev).2).lookupKey "routing_key"
        = some (.str c.integration_key) := by
  constructor <;> cases ev <;> rfl

/-- C2: the response classifier maps every HTTP outcome to exactly one
result: a pre-response (synthetic) transport failure yields the transport
error, status 202 yields success with no value, every status in
`[400, 600)` yields `HttpError` with that status, and every other status
yields `NotAccepted` with that status. -/
theorem classify_response_characterization :
    (∀ d, classifyResponse (.synthetic d) = .error (.SyntheticUreqError d))
    ∧ classifyResponse (.response 202) = .ok ()
    ∧ (∀ s, 400 ≤ s → s < 600 →
        classifyResponse (.response s) = .error (.HttpError s))
    ∧ (∀ s, ¬(400 ≤ s ∧ s < 600) → s ≠ 202 →
        classifyResponse (.response s) = .error (.NotAccepted s)) := by
  refine ⟨fun d => rfl, rfl, ?_, ?_⟩
  · intro s h4 h6
    have he : ureqResponseIsError s = true := by
      unfold ureqResponseIsError
      simp only [Bool.or_eq_true, Bool.and_eq_true, decide_eq_true_iff]
      omega
    simp [classifyResponse, he]
  · intro s hrange h202
    have he : ureqResponseIsError s = false := by
      unfold ureqResponseIsError
      simp only [Bool.or_eq_false_iff, Bool.and_eq_false_iff, decide_eq_false_iff_not]
      omega
    simp [classifyResponse, he, h202]

/-- Witness for C2: the classifier evaluated at the spec's sample
statuses. -/
theorem classify_response_characterization_witness :
    classifyResponse (.response 400) = .error (.HttpError 400)
    ∧ classifyResponse (.response 503) = .error (.HttpError 503)
    ∧ classifyResponse (.response 201) = .error (.NotAccepted 201) :=
  ⟨classify_response_characterization.2.2.1 400 (by decide) (by decide),
   classify_response_characterization.2.2.1 503 (by decide) (by decide),
   classify_response_characterization.2.2.2 201 (by decide) (by decide)⟩

/-- C3: dispatch is a pure match with a fixed endpoint table — `Change`
events go to the change endpoint and all three alert variants to the alert
endpoint, in both builds, and the two endpoints are distinct (so no variant
is ever routed to the other endpoint). -/
theorem event_endpoint_table (c : EventsV2) (ev : Event) :
    (c.eventRequestSync ev).1
        = (match ev with
            | .Change _ => changeUrl
            | .AlertTrigger _ => alertUrl
            | .AlertAcknowledge _ => alertUrl
            | .AlertResolve _ => alertUrl)
    ∧ (c.eventRequestAsync ev).1
        = (match ev with
            | .Change _ => changeUrl
            | .AlertTrigger _ => alertUrl
            | .AlertAcknowledge _ => alertUrl
            | .AlertResolve _ => alertUrl)
    ∧ changeUrl ≠ alertUrl := by
  refine ⟨?_, ?_, by decide⟩ <;> cases ev <;> rfl

/-- C7: enrichment of an `AlertAcknowledge` or `AlertResolve` produces an
envelope with exactly the fields `routing_key`, `dedup_key` (copied from
the event) and `event_action` (`"acknowledge"` resp. `"resolve"`), in both
builds; nothing else is carried. -/
theorem followup_envelope_exact (c : EventsV2) (aa : AlertAcknowledge)
    (ar : AlertResolve) :
    (c.eventRequestSync (.AlertAcknowledge aa)).2
        = .obj [("routing_key", .str c.integration_key),
            ("dedup_key", .str aa.dedup_key),
            ("event_action", .str "acknowledge")]
    ∧ (c.eventRequestSync (.AlertResolve ar)).2
        = .obj [("routing_key", .str c.integration_key),
            ("dedup_key", .str ar.dedup_key),
            ("event_action", .str "resolve")]
    ∧ (c.eventRequestAsync (.AlertAcknowledge aa)).2
        = .obj [("routing_key", .str c.integration_key),
            ("dedup_key", .str aa.dedup_key),
            ("event_action", .str "acknowledge")]
    ∧ (c.eventRequestAsync (.AlertResolve ar)).2
        = .obj [("routing_key", .str c.integration_key),
            ("dedup_key", .str ar.dedup_key),
            ("event_action", .str "resolve")] :=
  ⟨rfl, rfl, rfl, rfl⟩

/-- C8: when serialization of the envelope fails, `do_post` returns the
serialization error with no POST issued (`sentBody = none`), whatever the
transport would have answered — the transport is never consulted. -/
theorem serialization_failure_before_network (e : String)
    (transport : String → UreqResponse) :
    do_post (.error e) transport
      = { result := .error (.SerdeJsonError e), sentBody := none } :=
  rfl

/-- C10: client construction never fails — `EventsV2::new` returns `Ok`
holding exactly the given integration key and user agent, for every
input. -/
theorem new_never_fails (k : String) (ua : Option String) :
    EventsV2.new k ua = .ok { integration_key := k, user_agent := ua } :=
  rfl

/-- C9: enriching the spec's sample `AlertTrigger` (dedup key
`"dedupkey1"`, severity `Info`, summary `"Hello"`, source `"hostname"`,
all other optional fields absent) under integration key `"routingkey"`
serializes, in both builds, to exactly the expected envelope JSON —
including key order and lowercase enum tokens. -/
theorem alert_trigger_roundtrip_example :
    let ev : Event := .AlertTrigger
      { payload :=
          { severity := .Info, summary := "Hello", source := "hostname",
            timestamp := none, component := none, group := none,
            cls := none, custom_details := none }
        dedup_key := some "dedupkey1", images := none, links := none,
        client := none, client_url := none }
    let c : EventsV2 := { integration_key := "routingkey", user_agent := none }
    (c.eventRequestSync ev).2.render
        = "\x7b\"routing_key\":\"routingkey\",\"payload\":\x7b\"severity\":\"info\",\"summary\":\"Hello\",\"source\":\"hostname\"\x7d,\"dedup_key\":\"dedupkey1\",\"event_action\":\"trigger\"\x7d"
    ∧ (c.eventRequestAsync ev).2.render
        = "\x7b\"routing_key\":\"routingkey\",\"payload\":\x7b\"severity\":\"info\",\"summary\":\"Hello\",\"source\":\"hostname\"\x7d,\"dedup_key\":\"dedupkey1\",\"event_action\":\"trigger\"\x7d" :=
  ⟨rfl, rfl⟩

/-- C6 (amended): the blocking formatter always emits
`date "T" time "." nine-digit-fraction "Z"`; the non-blocking (RFC 3339)
formatter emits the nine-digit fraction only when the nanosecond part is
nonzero and omits the fractional suffix entirely when it is zero (so the
claim's "every timestamp carries a fractional suffix" holds only for the
blocking build); the fraction, when present, is always exactly nine digits;
and the instant at Unix time 2000071804.323 s renders in both builds as
`2033-05-18T23:30:04.323000000Z` — trailing `Z`, no offset notation. -/
theorem timestamp_format_shape :
    (∀ t : OffsetDateTime,
      datetime_to_iso8601_sync t
        = t.dateStr ++ "T" ++ t.timeStr ++ "." ++ pad9 t.subsecNanos ++ "Z")
    ∧ (∀ t : OffsetDateTime, (pad9 t.subsecNanos).length = 9)
    ∧ (∀ t : OffsetDateTime, t.subsecNanos ≠ 0 →
        datetime_to_iso8601 t
          = t.dateStr ++ "T" ++ t.timeStr ++ "." ++ pad9 t.subsecNanos ++ "Z")
    ∧ (∀ t : OffsetDateTime, t.subsecNanos = 0 →
        datetime_to_iso8601 t = t.dateStr ++ "T" ++ t.timeStr ++ "Z")
    ∧ datetime_to_iso8601_sync (.from_unix_timestamp_nanos 2000071804323000000)
        = "2033-05-18T23:30:04.323000000Z"
    ∧ datetime_to_iso8601 (.from_unix_timestamp_nanos 2000071804323000000)
        = "2033-05-18T23:30:04.323000000Z" := by
  refine ⟨fun t => rfl, fun t => rfl, ?_, ?_, rfl, rfl⟩
  · intro t h
    unfold datetime_to_iso8601
    rw [if_neg h]
    simp [String.append_assoc]
  · intro t h
    unfold datetime_to_iso8601
    rw [if_pos h]
    simp

/-- Witness for C6 (amended): both fractional branches of the RFC 3339
formatter, evaluated at concrete instants. -/
theorem timestamp_format_shape_witness :
    (OffsetDateTime.from_unix_timestamp_nanos 2000071804323000000).subsecNanos ≠ 0
    ∧ datetime_to_iso8601 (.from_unix_timestamp_nanos 2000071804323000000)
        = (OffsetDateTime.from_unix_timestamp_nanos 2000071804323000000).dateStr
          ++ "T" ++ (OffsetDateTime.from_unix_timestamp_nanos 2000071804323000000).timeStr
          ++ "." ++ pad9 (OffsetDateTime.from_unix_timestamp_nanos 2000071804323000000).subsecNanos ++ "Z"
    ∧ (OffsetDateTime.from_unix_timestamp_nanos 1622332800000000000).subsecNanos = 0
    ∧ datetime_to_iso8601 (.from_unix_timestamp_nanos 1622332800000000000)
        = (OffsetDateTime.from_unix_timestamp_nanos 1622332800000000000).dateStr
          ++ "T" ++ (OffsetDateTime.from_unix_timestamp_nanos 1622332800000000000).timeStr ++ "Z" :=
  ⟨by decide,
   timestamp_format_shape.2.2.1 _ (by decide),
   by decide,
   timestamp_format_shape.2.2.2.1 _ (by decide)⟩

/-- Counterexample for C6 as stated: at the instant 2021-05-30T00:00:00 UTC
(zero nanoseconds) the non-blocking build's formatter emits no
fractional-second suffix at all — the output contains no `.` — refuting
"every timestamp field serializes with a fixed-precision fractional-second
suffix". -/
theorem timestamp_zero_frac_counterexample :
    datetime_to_iso8601 (.from_unix_timestamp_nanos 1622332800000000000)
      = "2021-05-30T00:00:00Z"
    ∧ '.' ∉ (datetime_to_iso8601 (.from_unix_timestamp_nanos 1622332800000000000)).toList :=
  ⟨rfl, by decide⟩

/-- The two builds' timestamp formatters agree exactly where the nanosecond
part is nonzero. -/
theorem datetime_formatters_agree (t : OffsetDateTime)
    (h : t.subsecNanos ≠ 0) :
    datetime_to_iso8601 t = datetime_to_iso8601_sync t := by
  unfold datetime_to_iso8601 datetime_to_iso8601_sync
  rw [if_neg h]
  simp [String.append_assoc]

/-- C5 (amended): the blocking and non-blocking builds produce the same
target URL and identical serialized wire bytes whenever every timestamp in
the event has a nonzero nanosecond part (in particular for all
acknowledge/resolve events, which carry no timestamp); they diverge only in
the rendering of whole-second timestamps, where the blocking `%N` formatter
pads with nine zeros while the RFC 3339 formatter drops the fraction. -/
theorem wire_bytes_agree (c : EventsV2) (ev : Event)
    (h : ev.timestampsHaveSubsec) :
    (c.eventRequestSync ev).1 = (c.eventRequestAsync ev).1
    ∧ (c.eventRequestSync ev).2.render = (c.eventRequestAsync ev).2.render := by
  cases ev with
  | Change ch =>
    refine ⟨rfl, ?_⟩
    have hfmt : datetime_to_iso8601 ch.payload.timestamp
        = datetime_to_iso8601_sync ch.payload.timestamp :=
      datetime_formatters_agree _ h
    simp [EventsV2.eventRequestSync, EventsV2.eventRequestAsync,
      EventsV2.eventRequest, SendableChange.toJson, SendableChange.from_change,
      ChangePayload.toJson, hfmt]
  | AlertTrigger at_ =>
    refine ⟨rfl, ?_⟩
    cases hts : at_.payload.timestamp with
    | none =>
      simp [EventsV2.eventRequestSync, EventsV2.eventRequestAsync,
        EventsV2.eventRequest, SendableAlertTrigger.toJson,
        SendableAlertTrigger.from_alert_trigger, AlertTriggerPayload.toJson, hts]
    | some ts =>
      have hfmt : datetime_to_iso8601 ts = datetime_to_iso8601_sync ts :=
        datetime_formatters_agree _ (h ts (by rw [hts]; rfl))
      simp [EventsV2.eventRequestSync, EventsV2.eventRequestAsync,
        EventsV2.eventRequest, SendableAlertTrigger.toJson,
        SendableAlertTrigger.from_alert_trigger, AlertTriggerPayload.toJson,
        hts, hfmt]
  | AlertAcknowledge aa => exact ⟨rfl, rfl⟩
  | AlertResolve ar => exact ⟨rfl, rfl⟩

/-- Witness for C5 (amended): a change event with a fractional timestamp
renders to the same wire bytes in both builds. -/
theorem wire_bytes_agree_witness :
    (Event.Change
        { payload :=
            { summary := "Hello",
              timestamp := .from_unix_timestamp_nanos 2000071804323000000,
              source := none, custom_details := none }
          links := none }).timestampsHaveSubsec
    ∧ (({ integration_key := "routingkey", user_agent := none } : EventsV2).eventRequestSync
          (.Change
            { payload :=
                { summary := "Hello",
                  timestamp := .from_unix_timestamp_nanos 2000071804323000000,
                  source := none, custom_details := none }
              links := none })).2.render
      = (({ integration_key := "routingkey", user_agent := none } : EventsV2).eventRequestAsync
          (.Change
            { payload :=
                { summary := "Hello",
                  timestamp := .from_unix_timestamp_nanos 2000071804323000000,
                  source := none, custom_details := none }
              links := none })).2.render :=
  by
  constructor
  · show (OffsetDateTime.from_unix_timestamp_nanos 2000071804323000000).subsecNanos ≠ 0
    decide
  · exact (wire_bytes_agree _
      (.Change
        { payload :=
            { summary := "Hello",
              timestamp := .from_unix_timestamp_nanos 2000071804323000000,
              source := none, custom_details := none }
          links := none })
      (show (OffsetDateTime.from_unix_timestamp_nanos 2000071804323000000).subsecNanos ≠ 0
        by decide)).2

/-- Counterexample for C5 as stated: at a whole-second timestamp
(2021-05-30T00:00:00 UTC) the two builds serialize the very same change
event to different wire bytes — the blocking build emits
`.000000000` where the non-blocking build emits no fraction. -/
theorem wire_bytes_differ_counterexample :
    let ev : Event := .Change
      { payload :=
          { summary := "Hello",
            timestamp := .from_unix_timestamp_nanos 1622332800000000000,
            source := none, custom_details := none }
        links := none }
    let c : EventsV2 := { integration_key := "routingkey", user_agent := none }
    (c.eventRequestSync ev).2.render
        = "\x7b\"routing_key\":\"routingkey\",\"payload\":\x7b\"summary\":\"Hello\",\"timestamp\":\"2021-05-30T00:00:00.000000000Z\"\x7d\x7d"
    ∧ (c.eventRequestAsync ev).2.render
        = "\x7b\"routing_key\":\"routingkey\",\"payload\":\x7b\"summary\":\"Hello\",\"timestamp\":\"2021-05-30T00:00:00Z\"\x7d\x7d"
    ∧ (c.eventRequestSync ev).2.render ≠ (c.eventRequestAsync ev).2.render :=
  ⟨rfl, rfl, by decide⟩

/-- The key contributed by an optional field: present exactly when the
field is `Some`. -/
theorem keys_optField (n : String) (o : Option Json) :
    (optField n o).map Prod.fst = if o.isSome then [n] else [] := by
  cases o <;> rfl

/-- `Option.map` preserves presence. -/
theorem isSome_map {α β : Type} (f : α → β) (o : Option α) :
    (o.map f).isSome = o.isSome := by
  cases o <;> rfl

/-- `noNullValuedKeyFields` distributes over field-list concatenation. -/
theorem noNullValuedKeyFields_append (a b : List (String × Json)) :
    Json.noNullValuedKeyFields (a ++ b)
      = (Json.noNullValuedKeyFields a && Json.noNullValuedKeyFields b) := by
  induction a with
  | nil => simp [Json.noNullValuedKeyFields]
  | cons hd tl ih =>
    cases hd
    simp [Json.noNullValuedKeyFields, ih, Bool.and_assoc]

/-- An optional string field never contributes a null value. -/
theorem nnvkF_optField_mapStr (n : String) (o : Option String) :
    Json.noNullValuedKeyFields (optField n (o.map .str)) = true := by
  cases o <;> rfl

/-- An optional formatted-timestamp field never contributes a null value. -/
theorem nnvkF_optField_mapTs (n : String) (fmt : OffsetDateTime → String)
    (o : Option OffsetDateTime) :
    Json.noNullValuedKeyFields
      (optField n (o.map fun d => .str (fmt d))) = true := by
  cases o <;> rfl

/-- An optional JSON field whose value, when present, is non-null and free
of null-valued keys contributes no null value. -/
theorem nnvkF_optField_of (n : String) (o : Option Json)
    (h : ∀ j ∈ o, j.isNull = false ∧ j.noNullValuedKey = true) :
    Json.noNullValuedKeyFields (optField n o) = true := by
  cases o with
  | none => rfl
  | some j =>
    simp [optField, Json.noNullValuedKeyFields, (h j rfl).1, (h j rfl).2]

/-- A serialized `Link` contains no null-valued key. -/
theorem nnvk_link (l : Link) : (Link.toJson l).noNullValuedKey = true := by
  cases l with
  | mk href text => cases text <;> rfl

/-- A serialized `Image` contains no null-valued key. -/
theorem nnvk_image (i : Image) : (Image.toJson i).noNullValuedKey = true := by
  cases i with
  | mk src href alt => cases href <;> cases alt <;> rfl

/-- A serialized link list contains no null-valued key. -/
theorem nnvk_linksArr (ls : List Link) :
    (Json.arr (ls.map Link.toJson)).noNullValuedKey = true := by
  induction ls with
  | nil => rfl
  | cons l tl ih =>
    have h2 : Json.noNullValuedKeyList (tl.map Link.toJson) = true := ih
    show ((Link.toJson l).noNullValuedKey
      && Json.noNullValuedKeyList (tl.map Link.toJson)) = true
    rw [nnvk_link l, h2]
    rfl

/-- A serialized image list contains no null-valued key. -/
theorem nnvk_imagesArr (is : List Image) :
    (Json.arr (is.map Image.toJson)).noNullValuedKey = true := by
  induction is with
  | nil => rfl
  | cons i tl ih =>
    have h2 : Json.noNullValuedKeyList (tl.map Image.toJson) = true := ih
    show ((Image.toJson i).noNullValuedKey
      && Json.noNullValuedKeyList (tl.map Image.toJson)) = true
    rw [nnvk_image i, h2]
    rfl

/-- An optional link-list field never contributes a null value. -/
theorem nnvkF_optField_links (n : String) (o : Option (List Link)) :
    Json.noNullValuedKeyFields
      (optField n (o.map fun ls => Json.arr (ls.map Link.toJson))) = true := by
  cases o with
  | none => rfl
  | some ls =>
    simp [optField, Json.noNullValuedKeyFields, Json.isNull]
    simpa [Json.noNullValuedKey] using nnvk_linksArr ls

/-- An optional image-list field never contributes a null value. -/
theorem nnvkF_optField_images (n : String) (o : Option (List Image)) :
    Json.noNullValuedKeyFields
      (optField n (o.map fun is => Json.arr (is.map Image.toJson))) = true := by
  cases o with
  | none => rfl
  | some is =>
    simp [optField, Json.noNullValuedKeyFields, Json.isNull]
    simpa [Json.noNullValuedKey] using nnvk_imagesArr is

/-- C4 (amended): for every envelope value, the JSON serialization contains
one key per present optional field, in declaration order, and no key for an
absent optional field; and, provided the caller's `custom_details`
document — the one field whose value the caller fully controls — is itself
non-null and free of null-valued keys, no null-valued key appears anywhere
in the output.  (Without that proviso the claim fails: a caller whose
custom-details type serializes to JSON `null` produces
`"custom_details":null` — see the counterexample.) -/
theorem optional_field_keys_and_no_nulls (fmt : OffsetDateTime → String)
    (sc : SendableChange) (sat : SendableAlertTrigger)
    (saf : SendableAlertFollowup)
    (hsc : ∀ j ∈ sc.payload.custom_details,
      j.isNull = false ∧ j.noNullValuedKey = true)
    (hsat : ∀ j ∈ sat.payload.custom_details,
      j.isNull = false ∧ j.noNullValuedKey = true) :
    (sc.toJson fmt).topKeys
        = ["routing_key", "payload"]
          ++ (if sc.links.isSome then ["links"] else [])
    ∧ (sc.payload.toJson fmt).topKeys
        = ["summary", "timestamp"]
          ++ (if sc.payload.source.isSome then ["source"] else [])
          ++ (if sc.payload.custom_details.isSome then ["custom_details"] else [])
    ∧ (sat.toJson fmt).topKeys
        = ["routing_key", "payload"]
          ++ (if sat.dedup_key.isSome then ["dedup_key"] else [])
          ++ (if sat.images.isSome then ["images"] else [])
          ++ (if sat.links.isSome then ["links"] else [])
          ++ ["event_action"]
          ++ (if sat.client.isSome then ["client"] else [])
          ++ (if sat.client_url.isSome then ["client_url"] else [])
    ∧ (sat.payload.toJson fmt).topKeys
        = ["severity", "summary", "source"]
          ++ (if sat.payload.timestamp.isSome then ["timestamp"] else [])
          ++ (if sat.payload.component.isSome then ["component"] else [])
          ++ (if sat.payload.group.isSome then ["group"] else [])
          ++ (if sat.payload.cls.isSome then ["class"] else [])
          ++ (if sat.payload.custom_details.isSome then ["custom_details"] else [])
    ∧ saf.toJson.topKeys = ["routing_key", "dedup_key", "event_action"]
    ∧ (sc.toJson fmt).noNullValuedKey = true
    ∧ (sat.toJson fmt).noNullValuedKey = true
    ∧ saf.toJson.noNullValuedKey = true := by
  refine ⟨?_, ?_, ?_, ?_, rfl, ?_, ?_, rfl⟩
  · simp [SendableChange.toJson, Json.topKeys, List.map_append, keys_optField,
      isSome_map]
  · simp [ChangePayload.toJson, Json.topKeys, List.map_append, keys_optField,
      isSome_map]
  · simp [SendableAlertTrigger.toJson, Json.topKeys, List.map_append,
      keys_optField, isSome_map]
  · simp [AlertTriggerPayload.toJson, Json.topKeys, List.map_append,
      keys_optField, isSome_map]
  · simp [SendableChange.toJson, ChangePayload.toJson, Json.noNullValuedKey,
      Json.noNullValuedKeyFields, Json.isNull, noNullValuedKeyFields_append,
      nnvkF_optField_mapStr, nnvkF_optField_links, nnvkF_optField_of _ _ hsc]
  · simp [SendableAlertTrigger.toJson, AlertTriggerPayload.toJson,
      Json.noNullValuedKey, Json.noNullValuedKeyFields, Json.isNull,
      noNullValuedKeyFields_append, nnvkF_optField_mapStr,
      nnvkF_optField_mapTs, nnvkF_optField_links, nnvkF_optField_images,
      nnvkF_optField_of _ _ hsat]

/-- Witness for C4 (amended): a fully populated change envelope with a
non-null custom-details document has exactly the expected keys and no
null-valued key. -/
theorem optional_field_keys_and_no_nulls_witness :
    (∀ j ∈ (some (Json.obj [("a", Json.num 34)]) : Option Json),
      j.isNull = false ∧ j.noNullValuedKey = true)
    ∧ (∀ j ∈ (none : Option Json),
      j.isNull = false ∧ j.noNullValuedKey = true)
    ∧ (({ routing_key := "routingkey",
          payload :=
            { summary := "Hello",
              timestamp := .from_unix_timestamp_nanos 2000071804323000000,
              source := some "hostname",
              custom_details := some (.obj [("a", .num 34)]) },
          links := some [{ href := "https://polyverse.com", text := some "t" }] }
          : SendableChange).toJson datetime_to_iso8601).topKeys
        = ["routing_key", "payload", "links"]
    ∧ (({ routing_key := "routingkey",
          payload :=
            { summary := "Hello",
              timestamp := .from_unix_timestamp_nanos 2000071804323000000,
              source := some "hostname",
              custom_details := some (.obj [("a", .num 34)]) },
          links := some [{ href := "https://polyverse.com", text := some "t" }] }
          : SendableChange).toJson datetime_to_iso8601).noNullValuedKey = true := by
  have h1 : ∀ j ∈ (some (Json.obj [("a", Json.num 34)]) : Option Json),
      j.isNull = false ∧ j.noNullValuedKey = true := by
    intro j hj
    simp only [Option.mem_def, Option.some.injEq] at hj
    subst hj
    exact ⟨rfl, rfl⟩
  have h2 : ∀ j ∈ (none : Option Json),
      j.isNull = false ∧ j.noNullValuedKey = true := by
    intro j hj
    cases hj
  refine ⟨h1, h2, ?_, ?_⟩
  · exact (optional_field_keys_and_no_nulls datetime_to_iso8601 _
      { routing_key := "k", payload :=
          { severity := .Info, summary := "s", source := "h", timestamp := none,
            component := none, group := none, cls := none, custom_details := none },
        dedup_key := none, images := none, links := none,
        event_action := .Trigger, client := none, client_url := none }
      { routing_key := "k", dedup_key := "d", event_action := .Resolve }
      h1 h2).1
  · exact (optional_field_keys_and_no_nulls datetime_to_iso8601 _
      { routing_key := "k", payload :=
          { severity := .Info, summary := "s", source := "h", timestamp := none,
            component := none, group := none, cls := none, custom_details := none },
        dedup_key := none, images := none, links := none,
        event_action := .Trigger, client := none, client_url := none }
      { routing_key := "k", dedup_key := "d", event_action := .Resolve }
      h1 h2).2.2.2.2.2.1

/-- Counterexample for C4 as stated: a caller-supplied `custom_details`
value that serializes to JSON `null` (e.g. Rust's `()` under `serde_json`)
is `Some`, so `skip_serializing_if = "Option::is_none"` keeps the key, and
the library's own enrichment emits `"custom_details":null` on the wire —
a null-valued key in the output. -/
theorem null_valued_key_counterexample :
    let ev : Event := .Change
      { payload :=
          { summary := "Hello",
            timestamp := .from_unix_timestamp_nanos 2000071804323000000,
            source := none, custom_details := some .null }
        links := none }
    let c : EventsV2 := { integration_key := "routingkey", user_agent := none }
    (c.eventRequestAsync ev).2.render
        = "\x7b\"routing_key\":\"routingkey\",\"payload\":\x7b\"summary\":\"Hello\",\"timestamp\":\"2033-05-18T23:30:04.323000000Z\",\"custom_details\":null\x7d\x7d"
    ∧ (c.eventRequestAsync ev).2.noNullValuedKey = false :=
  ⟨rfl, rfl⟩

end PagerDuty
